import Mathlib

/-!
Verification development for the tsdat ingest core: a shallow embedding of
the raw-dataset customizer hook (`BuoyIngestPipeline.customize_raw_datasets`
in `examples/a2e_buoy_ingest/pipeline.py`) and of the validated attribute
model (`GlobalAttributes` in `tsdat/config/attributes.py`), together with
theorems settling the behavioural claims about both.
-/

/-! ### Basic string helpers -/

/-- Substring test on character lists, embedding the Python `pat in s`
containment operator. -/
def listInfixOf (pat : List Char) : List Char → Bool
  | [] => pat.isEmpty
  | c :: t => pat.isPrefixOf (c :: t) || listInfixOf pat t

/-- The Python expression `pat in s` on strings. -/
def strContains (s pat : String) : Bool := listInfixOf pat.data s.data

/-- The Python `str.isascii` test: every codepoint is below 128. -/
def strIsAscii (s : String) : Bool := s.data.all (fun c => c.toNat < 128)

/-! ### NDArray and Dataset model

The raw datasets handled by `customize_raw_datasets` are xarray Datasets
whose variables hold numpy arrays.  Only one- and two-dimensional integer
arrays are needed by the customizer, so an array is modelled as either a
list (1-D) or a list of rows (2-D).  Element values are `Int`. -/

inductive NDArray where
  | arr1 (data : List Int)
  | arr2 (rows : List (List Int))
  deriving DecidableEq, Repr

/-- Number of axes of an array (numpy `ndim`). -/
def NDArray.ndim : NDArray → Nat
  | .arr1 _ => 1
  | .arr2 _ => 2

/-- Length of the leading row of a 2-D array (its number of columns). -/
def rowLen (rows : List (List Int)) : Nat :=
  match rows with
  | [] => 0
  | r :: _ => r.length

/-- Embedding of `np.array(xs)` applied to the Python list of per-depth
1-D arrays collected by the currents rule.  An empty list yields the 1-D
empty array of shape `(0,)` (this is what numpy does, and it is the shape
that later breaks the 2-D `DataArray` construction).  A ragged list raises
(numpy rejects inhomogeneous shapes).  Stacking non-1-D inputs is left as
an error: on such inputs the real code also fails inside the currents rule
(numpy builds a 3-D array and the 2-D `DataArray` constructor then throws). -/
def liftRows : List NDArray → Option (List (List Int))
  | [] => some []
  | .arr1 d :: rest => (liftRows rest).map (fun rs => d :: rs)
  | .arr2 _ :: _ => Option.none

def npStack (l : List NDArray) : Except String NDArray :=
  match l with
  | [] => .ok (.arr1 [])
  | _ =>
    match liftRows l with
    | some rows =>
      if rows.all (fun r => r.length = rowLen rows) then .ok (.arr2 rows)
      else .error "setting an array element with a sequence: inhomogeneous shape"
    | Option.none => .error "stacking non-1-D arrays is outside the model"

/-- Embedding of numpy `.transpose()`: a no-op on 1-D arrays, and the axis
swap on 2-D arrays (entry `(t, j)` of the result is entry `(j, t)` of the
argument). -/
def npTranspose : NDArray → NDArray
  | .arr1 d => .arr1 d
  | .arr2 rows => .arr2 ((List.range (rowLen rows)).map (fun t => rows.map (fun r => r.getD t 0)))

/-- A named-dimension array, embedding an `xr.DataArray` (and an xarray
variable): dimension names plus the underlying data. -/
structure Var where
  dims : List String
  data : NDArray
  deriving DecidableEq, Repr

/-- Embedding of `xr.DataArray(data=..., dims=...)`: xarray raises when the
number of dimension names differs from the number of data axes. -/
def mkDataArray (data : NDArray) (dims : List String) : Except String Var :=
  if dims.length = data.ndim then .ok ⟨dims, data⟩
  else .error "different number of dimensions on data and dims"

/-- Embedding of an `xr.Dataset`: an ordered association of variable names
to variables, plus the set of names currently promoted to coordinates. -/
structure Dataset where
  vars : List (String × Var)
  coords : List String
  deriving DecidableEq, Repr

/-- Variable lookup, `name in dataset.variables` / `dataset[name]`. -/
def Dataset.lookupVar (ds : Dataset) (n : String) : Option Var := ds.vars.lookup n

/-- Replace the binding of `n` (or append it), embedding `dataset[n] = v`. -/
def updateAssoc (l : List (String × Var)) (n : String) (v : Var) : List (String × Var) :=
  match l with
  | [] => [(n, v)]
  | (k, w) :: rest => if k = n then (n, v) :: rest else (k, w) :: updateAssoc rest n v

/-- Embedding of `dataset[name] = data_array`. -/
def setItem (ds : Dataset) (n : String) (v : Var) : Dataset :=
  { ds with vars := updateAssoc ds.vars n v }

/-- Promotion of an existing variable to a coordinate. -/
def setCoordsForce (ds : Dataset) (n : String) : Dataset :=
  { ds with coords := if ds.coords.contains n then ds.coords else ds.coords ++ [n] }

/-- Embedding of `dataset.set_coords(name)`: fails when the name is not a
variable of the dataset, otherwise marks it as a coordinate. -/
def setCoords (ds : Dataset) (n : String) : Except String Dataset :=
  match ds.lookupVar n with
  | some _ => .ok (setCoordsForce ds n)
  | Option.none => .error ("cannot set missing variable as coordinate: " ++ n)

/-- Embedding of `dataset.rename_vars(mapping)`: xarray raises when a key of
the mapping names no variable of the dataset; otherwise every occurrence of
an old name (in the variable list and in the coordinate set) is replaced by
the new name. -/
def applyRename (m : List (String × String)) (n : String) : String := (m.lookup n).getD n

def renameVars (ds : Dataset) (m : List (String × String)) : Except String Dataset :=
  if m.all (fun p => (ds.lookupVar p.1).isSome) then
    .ok { vars := ds.vars.map (fun kv => (applyRename m kv.1, kv.2)),
          coords := ds.coords.map (applyRename m) }
  else .error "cannot rename a name that is not a variable of this dataset"

/-! ### The customizer (`BuoyIngestPipeline.customize_raw_datasets`) -/

/-- The raw variable name `f"Vel{i} (mm/s)"`. -/
def velName (i : Nat) : String := "Vel" ++ toString i ++ " (mm/s)"

/-- The raw variable name `f"Dir{i} (deg)"`. -/
def dirName (i : Nat) : String := "Dir" ++ toString i ++ " (deg)"

/-- The inner predicate `has_vel_and_dir(index)` of the currents rule. -/
def hasVelAndDir (ds : Dataset) (i : Nat) : Bool :=
  (ds.lookupVar (velName (i + 1))).isSome && (ds.lookupVar (dirName (i + 1))).isSome

/-- Data of `dataset[n]` when `n` is known to be present (the currents loop
only reads names its guard has just found; absent names fall back to an
empty array, a case the loop never reaches). -/
def getData (ds : Dataset) (n : String) : NDArray :=
  match ds.lookupVar n with
  | some v => v.data
  | Option.none => .arr1 []

/-- The currents `while has_vel_and_dir(i)` loop, collecting depths,
velocity arrays and direction arrays for the contiguous indices found.  The
loop consumes at least two distinct variables per step, so any fuel larger
than the number of variables makes the recursion equal to the source loop. -/
def scanGo (ds : Dataset) : Nat → Nat → List Int × List NDArray × List NDArray
  | _, 0 => ([], [], [])
  | i, fuel + 1 =>
    if hasVelAndDir ds i then
      let r := scanGo ds (i + 1) fuel
      (((4 * (i + 1) : Int)) :: r.1,
        getData ds (velName (i + 1)) :: r.2.1,
        getData ds (dirName (i + 1)) :: r.2.2)
    else ([], [], [])

/-- Depths and stacked data collected by the currents rule, starting at
index 0 as in the source. -/
def scanPairs (ds : Dataset) : List Int × List NDArray × List NDArray :=
  scanGo ds 0 (ds.vars.length + 1)

/-- The body of the `"currents" in filename` branch: collect the pairs,
stack and transpose the arrays, promote the time input variable and the new
`depth` variable to coordinates, and attach `current_velocity` and
`current_direction` indexed by `(time, depth)`. -/
def currentsTransform (timeName : String) (ds : Dataset) : Except String Dataset :=
  let s := scanPairs ds
  match npStack s.2.1, npStack s.2.2 with
  | .ok velStack, .ok dirStack =>
    let velData := npTranspose velStack
    let dirData := npTranspose dirStack
    match setCoords ds timeName with
    | .ok ds1 =>
      match mkDataArray (.arr1 s.1) ["depth"] with
      | .ok depthVar =>
        let ds2 := setItem ds1 "depth" depthVar
        match setCoords ds2 "depth" with
        | .ok ds3 =>
          match mkDataArray velData ["time", "depth"], mkDataArray dirData ["time", "depth"] with
          | .ok velVar, .ok dirVar =>
            .ok (setItem (setItem ds3 "current_velocity" velVar) "current_direction" dirVar)
          | .error e, _ => .error e
          | _, .error e => .error e
        | .error e => .error e
      | .error e => .error e
    | .error e => .error e
  | .error e, _ => .error e
  | _, .error e => .error e

def surfacetempOld : String := "Surface Temperature (C)"

def surfacetempNew : String := "surfacetemp - Surface Temperature (C)"

def gillMapping : List (String × String) :=
  [("Horizontal Speed (m/s)", "gill_horizontal_wind_speed"),
   ("Horizontal Direction (deg)", "gill_horizontal_wind_direction")]

/-- One iteration of the customizer loop for the entry `(key, ds)`.  Each of
the three substring-dispatched rules reads the loop variable `dataset`
(which is never rebound between rules in the source), and each writes its
result back into the mapping slot; a later matching rule therefore
overwrites the slot with a transformation of the original dataset. -/
def processEntry (timeName key : String) (ds : Dataset) : Except String Dataset :=
  let step1 : Except String Dataset :=
    if strContains key "surfacetemp" then renameVars ds [(surfacetempOld, surfacetempNew)]
    else .ok ds
  match step1 with
  | .error e => .error e
  | .ok cur1 =>
    let step2 : Except String Dataset :=
      if strContains key "gill" then renameVars ds gillMapping else .ok cur1
    match step2 with
    | .error e => .error e
    | .ok cur2 =>
      if strContains key "currents" then currentsTransform timeName ds else .ok cur2

/-- Embedding of `customize_raw_datasets`: transform every entry of the raw
dataset mapping in order, propagating the first raised error.  `timeName`
is `dod.get_variable("time").get_input_name()`, the raw name of the time
column as configured for the pipeline. -/
def customizeRawDatasets (timeName : String) : List (String × Dataset) → Except String (List (String × Dataset))
  | [] => .ok []
  | (key, ds) :: rest =>
    match processEntry timeName key ds with
    | .error e => .error e
    | .ok ds2 =>
      match customizeRawDatasets timeName rest with
      | .error e => .error e
      | .ok rest2 => .ok ((key, ds2) :: rest2)


/-! ### Association-list and coordinate lemmas -/

theorem lookup_updateAssoc_self (l : List (String × Var)) (n : String) (v : Var) :
    (updateAssoc l n v).lookup n = some v := by
  induction l with
  | nil => simp [updateAssoc, List.lookup]
  | cons kv rest ih =>
    obtain ⟨k, w⟩ := kv
    by_cases h : k = n
    · simp [updateAssoc, h, List.lookup]
    · have hb : (n == k) = false := beq_eq_false_iff_ne.mpr (fun hh => h hh.symm)
      simp [updateAssoc, h, List.lookup, hb, ih]

theorem lookup_updateAssoc_ne (l : List (String × Var)) (n m : String) (v : Var)
    (h : ¬ m = n) : (updateAssoc l n v).lookup m = l.lookup m := by
  have hb : (m == n) = false := beq_eq_false_iff_ne.mpr h
  induction l with
  | nil => simp [updateAssoc, List.lookup, hb]
  | cons kv rest ih =>
    obtain ⟨k, w⟩ := kv
    by_cases hk : k = n
    · subst hk
      simp [updateAssoc, List.lookup, hb, ih]
    · have hkb : (k = n) = False := by simp [hk]
      by_cases hm : m = k
      · subst hm
        simp [updateAssoc, hk, List.lookup]
      · have hmb : (m == k) = false := beq_eq_false_iff_ne.mpr hm
        simp [updateAssoc, hk, List.lookup, hmb, ih]

theorem lookupVar_setItem_self (ds : Dataset) (n : String) (v : Var) :
    (setItem ds n v).lookupVar n = some v := by
  simp [setItem, Dataset.lookupVar, lookup_updateAssoc_self]

theorem lookupVar_setItem_ne (ds : Dataset) (n m : String) (v : Var) (h : ¬ m = n) :
    (setItem ds n v).lookupVar m = ds.lookupVar m := by
  simp [setItem, Dataset.lookupVar, lookup_updateAssoc_ne _ _ _ _ h]

theorem coords_setItem (ds : Dataset) (n : String) (v : Var) :
    (setItem ds n v).coords = ds.coords := rfl

theorem mem_coords_insert (l : List String) (n : String) :
    n ∈ (if l.contains n then l else l ++ [n]) := by
  by_cases h : n ∈ l <;> simp [h]

theorem mem_coords_setCoordsForce (ds : Dataset) (n : String) :
    n ∈ (setCoordsForce ds n).coords := mem_coords_insert ds.coords n

theorem lookupVar_setCoordsForce (ds : Dataset) (n m : String) :
    (setCoordsForce ds n).lookupVar m = ds.lookupVar m := rfl

/-! ### Concrete datasets used as inputs for the customizer claims -/

/-- A currents-keyed raw dataset holding `Vel1 (mm/s)` but no `Dir1 (deg)`:
the scan finds zero complete pairs. -/
def zeroPairDataset : Dataset :=
  ⟨[("Timestamp", ⟨["index"], .arr1 [0, 1]⟩),
    ("Vel1 (mm/s)", ⟨["index"], .arr1 [10, 11]⟩)], []⟩

/-- A raw dataset carrying the source columns of both the surfacetemp rule
and the gill rule. -/
def overlapDataset : Dataset :=
  ⟨[("Surface Temperature (C)", ⟨["index"], .arr1 [1]⟩),
    ("Horizontal Speed (m/s)", ⟨["index"], .arr1 [2]⟩),
    ("Horizontal Direction (deg)", ⟨["index"], .arr1 [3]⟩)], []⟩

/-- The value of `overlapDataset` after only the gill renames. -/
def overlapGillOnly : Dataset :=
  ⟨[("Surface Temperature (C)", ⟨["index"], .arr1 [1]⟩),
    ("gill_horizontal_wind_speed", ⟨["index"], .arr1 [2]⟩),
    ("gill_horizontal_wind_direction", ⟨["index"], .arr1 [3]⟩)], []⟩

/-- A two-pair currents-keyed raw dataset (`Vel1/Dir1`, `Vel2/Dir2`, no
`Vel3`). -/
def twoPairDataset : Dataset :=
  ⟨[("Timestamp", ⟨["index"], .arr1 [0, 1]⟩),
    ("Vel1 (mm/s)", ⟨["index"], .arr1 [10, 11]⟩),
    ("Dir1 (deg)", ⟨["index"], .arr1 [100, 101]⟩),
    ("Vel2 (mm/s)", ⟨["index"], .arr1 [20, 21]⟩),
    ("Dir2 (deg)", ⟨["index"], .arr1 [200, 201]⟩)], []⟩

/-! ### C7: zero complete pairs -/

/-- C7: the claim says that a currents-keyed dataset whose index-1 pair is
incomplete is processed without error, with an empty depth coordinate and
empty current arrays.  The code instead fails: with zero pairs the stacked
velocity list is the 1-D empty array, and attaching it as a DataArray with
dims `["time", "depth"]` raises a dimension-count error.  This theorem
evaluates the embedded customizer at the failing input. -/
theorem c7_zero_pairs_raises :
    customizeRawDatasets "Timestamp" [("buoy.z05.currents.csv", zeroPairDataset)] =
      .error "different number of dimensions on data and dims" := by rfl

/-! ### C9: overlapping rule keys -/

/-- C9 counterexample: for a key matching both `"surfacetemp"` and
`"gill"`, the claim says the result carries all three renames.  In the code
each rule transforms the per-file loop variable `dataset`, which is never
rebound, so the gill rule's result overwrites the surfacetemp rule's result
in the mapping: the surfacetemp rename is discarded (the renamed column is
absent and the original column name survives). -/
theorem c9_counterexample :
    customizeRawDatasets "t" [("buoy_gill_surfacetemp.csv", overlapDataset)] =
      .ok [("buoy_gill_surfacetemp.csv", overlapGillOnly)] ∧
    overlapGillOnly.lookupVar "surfacetemp - Surface Temperature (C)" = Option.none ∧
    overlapGillOnly.lookupVar "Surface Temperature (C)" = some ⟨["index"], .arr1 [1]⟩ := by
  refine ⟨by rfl, by rfl, by rfl⟩

/-- A surfacetemp-keyed dataset missing the expected source column makes
its own loop iteration fail at the surfacetemp rename. -/
theorem processEntry_error_surfacetemp (timeName key : String) (ds : Dataset)
    (h1 : strContains key "surfacetemp" = true)
    (h2 : ds.lookupVar surfacetempOld = Option.none) :
    ∃ e, processEntry timeName key ds = .error e := by
  refine ⟨"cannot rename a name that is not a variable of this dataset", ?_⟩
  simp [processEntry, h1, renameVars, h2]

/-- A gill-keyed dataset missing either expected source column makes its
own loop iteration fail at the gill rename (whether or not the surfacetemp
rule also fired first). -/
theorem processEntry_error_gill (timeName key : String) (ds : Dataset)
    (h1 : strContains key "gill" = true)
    (h2 : ds.lookupVar "Horizontal Speed (m/s)" = Option.none ∨
          ds.lookupVar "Horizontal Direction (deg)" = Option.none) :
    ∃ e, processEntry timeName key ds = .error e := by
  have hgill : renameVars ds gillMapping =
      .error "cannot rename a name that is not a variable of this dataset" := by
    rcases h2 with h2 | h2 <;> simp [renameVars, gillMapping, h2]
  by_cases hsurf : strContains key "surfacetemp" = true
  · cases hrn : renameVars ds [(surfacetempOld, surfacetempNew)] with
    | error e => exact ⟨e, by simp [processEntry, hsurf, hrn]⟩
    | ok d =>
      exact ⟨"cannot rename a name that is not a variable of this dataset",
        by simp [processEntry, hsurf, hrn, h1, hgill]⟩
  · have hsurf2 : strContains key "surfacetemp" = false := by
      cases h : strContains key "surfacetemp" <;> simp_all
    exact ⟨"cannot rename a name that is not a variable of this dataset",
      by simp [processEntry, hsurf2, h1, hgill]⟩

/-- If some entry of the mapping fails, the whole customizer run fails. -/
theorem customize_error_of_entry (timeName : String) :
    ∀ mapping : List (String × Dataset), ∀ key ds, (key, ds) ∈ mapping →
    (∃ e, processEntry timeName key ds = .error e) →
    ∃ e, customizeRawDatasets timeName mapping = .error e := by
  intro mapping
  induction mapping with
  | nil => intro key ds hmem; simp at hmem
  | cons hd rest ih =>
    intro key ds hmem hfail
    obtain ⟨k0, d0⟩ := hd
    rcases List.mem_cons.mp hmem with heq | hmem2
    · obtain ⟨e, he⟩ := hfail
      obtain ⟨hk, hd⟩ := Prod.mk.injEq .. ▸ heq
      refine ⟨e, ?_⟩
      subst hk hd
      simp [customizeRawDatasets, he]
    · cases hpe : processEntry timeName k0 d0 with
      | error e => exact ⟨e, by simp [customizeRawDatasets, hpe]⟩
      | ok d2 =>
        obtain ⟨e, he⟩ := ih key ds hmem2 hfail
        exact ⟨e, by simp [customizeRawDatasets, hpe, he]⟩

/-! ### C8: missing rename sources are fatal -/

/-- C8: a raw dataset whose mapping key contains `"surfacetemp"` but which
lacks the variable `Surface Temperature (C)` makes the whole
`customize_raw_datasets` call raise a missing-field error, and likewise a
`"gill"`-keyed dataset lacking `Horizontal Speed (m/s)` or
`Horizontal Direction (deg)`; the renames never silently skip a matching
file. -/
theorem c8_missing_rename_source_raises (timeName : String)
    (mapping : List (String × Dataset)) (key : String) (ds : Dataset)
    (hmem : (key, ds) ∈ mapping)
    (hcase : (strContains key "surfacetemp" = true ∧
              ds.lookupVar "Surface Temperature (C)" = Option.none) ∨
             (strContains key "gill" = true ∧
              (ds.lookupVar "Horizontal Speed (m/s)" = Option.none ∨
               ds.lookupVar "Horizontal Direction (deg)" = Option.none))) :
    ∃ e, customizeRawDatasets timeName mapping = .error e := by
  refine customize_error_of_entry timeName mapping key ds hmem ?_
  rcases hcase with ⟨h1, h2⟩ | ⟨h1, h2⟩
  · exact processEntry_error_surfacetemp timeName key ds h1 h2
  · exact processEntry_error_gill timeName key ds h1 h2

/-- Witness for C8 at a concrete surfacetemp-keyed dataset lacking the
source column. -/
theorem c8_missing_rename_source_raises_witness :
    strContains "buoy.z05.surfacetemp.csv" "surfacetemp" = true ∧
    (∃ e, customizeRawDatasets "Timestamp"
        [("buoy.z05.surfacetemp.csv", ⟨[("Timestamp", ⟨["index"], .arr1 [0]⟩)], []⟩)] = .error e) :=
  ⟨by rfl,
   c8_missing_rename_source_raises "Timestamp"
     [("buoy.z05.surfacetemp.csv", ⟨[("Timestamp", ⟨["index"], .arr1 [0]⟩)], []⟩)]
     "buoy.z05.surfacetemp.csv" ⟨[("Timestamp", ⟨["index"], .arr1 [0]⟩)], []⟩
     (by simp) (Or.inl ⟨by rfl, by rfl⟩)⟩

/-- C9 (amended): the three rules are dispatched independently by substring
match, but each matching rule transforms the original per-file dataset and
overwrites the mapping slot, so when several rules match one key only the
last matching rule's transformation survives; for a key matching
`"surfacetemp"` and `"gill"` (and not `"currents"`) the final entry is the
gill rename of the original dataset and the surfacetemp rename is
discarded. -/
theorem c9_last_matching_rule_wins (timeName key : String) (ds ds1 ds2 : Dataset)
    (hsurf : strContains key "surfacetemp" = true)
    (hgill : strContains key "gill" = true)
    (hcur : strContains key "currents" = false)
    (hrn1 : renameVars ds [(surfacetempOld, surfacetempNew)] = .ok ds1)
    (hrn2 : renameVars ds gillMapping = .ok ds2) :
    customizeRawDatasets timeName [(key, ds)] = .ok [(key, ds2)] := by
  simp [customizeRawDatasets, processEntry, hsurf, hgill, hcur, hrn1, hrn2]

/-- Witness for C9 (amended) at the concrete overlapping-key input. -/
theorem c9_last_matching_rule_wins_witness :
    strContains "buoy_gill_surfacetemp.csv" "surfacetemp" = true ∧
    strContains "buoy_gill_surfacetemp.csv" "gill" = true ∧
    customizeRawDatasets "t" [("buoy_gill_surfacetemp.csv", overlapDataset)] =
      .ok [("buoy_gill_surfacetemp.csv", overlapGillOnly)] :=
  ⟨by rfl, by rfl,
   c9_last_matching_rule_wins "t" "buoy_gill_surfacetemp.csv" overlapDataset
     ⟨[("surfacetemp - Surface Temperature (C)", ⟨["index"], .arr1 [1]⟩),
       ("Horizontal Speed (m/s)", ⟨["index"], .arr1 [2]⟩),
       ("Horizontal Direction (deg)", ⟨["index"], .arr1 [3]⟩)], []⟩
     overlapGillOnly (by rfl) (by rfl) (by rfl) (by rfl) (by rfl)⟩

/-! ### C1: the currents scan and stack -/

/-- Characterization of the currents while-loop: if the pair predicate
holds for exactly the offsets below `m` (counting from start index `i`) and
the fuel exceeds `m`, the loop returns the depths and the data of those `m`
pairs in increasing index order. -/
theorem scanGo_spec (ds : Dataset) :
    ∀ m i fuel, (∀ j, j < m → hasVelAndDir ds (i + j) = true) →
    hasVelAndDir ds (i + m) = false → m < fuel →
    scanGo ds i fuel =
      ((List.range m).map (fun (j : Nat) => (4 * (i + j + 1) : Int)),
       (List.range m).map (fun j => getData ds (velName (i + j + 1))),
       (List.range m).map (fun j => getData ds (dirName (i + j + 1)))) := by
  intro m
  induction m with
  | zero =>
    intro i fuel h1 h2 hf
    match fuel, hf with
    | fuel + 1, _ =>
      have h2e : hasVelAndDir ds i = false := by simpa using h2
      simp [scanGo, h2e]
  | succ m ih =>
    intro i fuel h1 h2 hf
    match fuel, hf with
    | fuel + 1, hf =>
      have h0 : hasVelAndDir ds i = true := by simpa using h1 0 (Nat.succ_pos m)
      have ihh := ih (i + 1) fuel
        (fun j hj => by
          have hh := h1 (j + 1) (by omega)
          have he : i + (j + 1) = i + 1 + j := by omega
          rwa [he] at hh)
        (by
          have he : i + (m + 1) = i + 1 + m := by omega
          rwa [he] at h2)
        (by omega)
      simp only [scanGo, h0, if_true, ihh]
      rw [List.range_succ_eq_map]
      simp only [List.map_cons, List.map_map, Prod.mk.injEq]
      refine ⟨?_, ?_, ?_⟩
      · refine List.cons_eq_cons.mpr ⟨by push_cast; ring, ?_⟩
        apply List.map_congr_left
        intro j hj
        have he : (((i + 1 : Nat) : Int) + (j : Int) + 1) = ((i : Nat) : Int) + ((j + 1 : Nat) : Int) + 1 := by
          push_cast; ring
        simp only [Function.comp, Nat.succ_eq_add_one, he]
      · refine List.cons_eq_cons.mpr ⟨by norm_num, ?_⟩
        apply List.map_congr_left
        intro j hj
        have he : i + 1 + j + 1 = i + (j + 1) + 1 := by omega
        simp [Function.comp, he]
      · refine List.cons_eq_cons.mpr ⟨by norm_num, ?_⟩
        apply List.map_congr_left
        intro j hj
        have he : i + 1 + j + 1 = i + (j + 1) + 1 := by omega
        simp [Function.comp, he]

/-- The row projection used by `npStack` succeeds on 1-D arrays. -/
theorem liftRows_map_arr1 (rows : List (List Int)) :
    liftRows (rows.map NDArray.arr1) = some rows := by
  induction rows with
  | nil => rfl
  | cons r rest ih => simp [liftRows, ih]

/-- Stacking a nonempty uniform list of 1-D arrays gives the 2-D array of
its rows. -/
theorem npStack_map_arr1 (rows : List (List Int)) (T : Nat) (hne : rows ≠ [])
    (hlen : ∀ r ∈ rows, r.length = T) :
    npStack (rows.map NDArray.arr1) = .ok (.arr2 rows) := by
  match rows, hne with
  | r0 :: rest, _ =>
    have hlift : liftRows (NDArray.arr1 r0 :: List.map NDArray.arr1 rest) = some (r0 :: rest) := by
      simpa using liftRows_map_arr1 (r0 :: rest)
    have hforall : ∀ r ∈ r0 :: rest, r.length = rowLen (r0 :: rest) := by
      intro r hr
      rw [hlen r hr]
      simp [rowLen, hlen r0 (List.mem_cons_self r0 rest)]
    simp only [npStack, List.map_cons, hlift]
    simp only [List.all_eq_true, decide_eq_true_eq, if_pos hforall]

/-- Reduction of `set_coords` on a present variable. -/
theorem setCoords_ok (ds : Dataset) (n : String) (v : Var) (h : ds.lookupVar n = some v) :
    setCoords ds n = .ok (setCoordsForce ds n) := by
  simp [setCoords, h]

/-- C1: on a currents-keyed dataset holding exactly the contiguous pairs
`Vel1..Velk (mm/s)` / `Dir1..Dirk (deg)` (each a 1-D series of length `T`),
the customizer succeeds and attaches a `depth` coordinate with
`depth[j] = 4 * (j + 1)`, plus `current_velocity` and `current_direction`
data variables over dims `(time, depth)` whose row `t` and column `j` hold
entry `t` of the pair with index `j + 1`: shape `(T, k)`, columns ordered
by increasing index and hence increasing depth. -/
theorem c1_currents_rule (timeName key : String) (ds : Dataset) (k T : Nat)
    (vel dir : Nat → List Int)
    (hkey : strContains key "currents" = true)
    (hsurf : strContains key "surfacetemp" = false)
    (hgill : strContains key "gill" = false)
    (hk : 1 ≤ k) (hbound : k ≤ ds.vars.length)
    (hvel : ∀ i, 1 ≤ i → i ≤ k → ∃ dm, ds.lookupVar (velName i) = some ⟨dm, .arr1 (vel i)⟩)
    (hdir : ∀ i, 1 ≤ i → i ≤ k → ∃ dm, ds.lookupVar (dirName i) = some ⟨dm, .arr1 (dir i)⟩)
    (hlen : ∀ i, 1 ≤ i → i ≤ k → (vel i).length = T ∧ (dir i).length = T)
    (hstop : ds.lookupVar (velName (k + 1)) = Option.none ∨
             ds.lookupVar (dirName (k + 1)) = Option.none)
    (htime : (ds.lookupVar timeName).isSome = true) :
    ∃ out : Dataset,
      customizeRawDatasets timeName [(key, ds)] = .ok [(key, out)] ∧
      out.lookupVar "depth" =
        some ⟨["depth"], .arr1 ((List.range k).map (fun (j : Nat) => (4 * (j + 1) : Int)))⟩ ∧
      "depth" ∈ out.coords ∧
      out.lookupVar "current_velocity" =
        some ⟨["time", "depth"],
          .arr2 ((List.range T).map (fun t => (List.range k).map (fun j => (vel (j + 1)).getD t 0)))⟩ ∧
      out.lookupVar "current_direction" =
        some ⟨["time", "depth"],
          .arr2 ((List.range T).map (fun t => (List.range k).map (fun j => (dir (j + 1)).getD t 0)))⟩ := by
  -- the loop guard holds below k and fails at k
  have hasT : ∀ j, j < k → hasVelAndDir ds j = true := by
    intro j hj
    obtain ⟨dmv, hv⟩ := hvel (j + 1) (by omega) (by omega)
    obtain ⟨dmd, hd⟩ := hdir (j + 1) (by omega) (by omega)
    simp [hasVelAndDir, hv, hd]
  have hasF : hasVelAndDir ds k = false := by
    rcases hstop with h | h <;> simp [hasVelAndDir, h]
  -- the scan collects the k pairs
  have hscan : scanPairs ds =
      ((List.range k).map (fun (j : Nat) => (4 * (j + 1) : Int)),
       (List.range k).map (fun j => getData ds (velName (j + 1))),
       (List.range k).map (fun j => getData ds (dirName (j + 1)))) := by
    have hs := scanGo_spec ds k 0 (ds.vars.length + 1)
      (fun j hj => by simpa using hasT j hj) (by simpa using hasF) (by omega)
    simpa [scanPairs] using hs
  -- the collected arrays are the 1-D series of the pairs
  have hvdata : ∀ j, j < k → getData ds (velName (j + 1)) = .arr1 (vel (j + 1)) := by
    intro j hj
    obtain ⟨dm, hv⟩ := hvel (j + 1) (by omega) (by omega)
    simp [getData, hv]
  have hddata : ∀ j, j < k → getData ds (dirName (j + 1)) = .arr1 (dir (j + 1)) := by
    intro j hj
    obtain ⟨dm, hd⟩ := hdir (j + 1) (by omega) (by omega)
    simp [getData, hd]
  have hvl : (List.range k).map (fun j => getData ds (velName (j + 1))) =
      ((List.range k).map (fun j => vel (j + 1))).map NDArray.arr1 := by
    rw [List.map_map]
    apply List.map_congr_left
    intro j hj
    rw [List.mem_range] at hj
    simp [hvdata j hj, Function.comp]
  have hdl : (List.range k).map (fun j => getData ds (dirName (j + 1))) =
      ((List.range k).map (fun j => dir (j + 1))).map NDArray.arr1 := by
    rw [List.map_map]
    apply List.map_congr_left
    intro j hj
    rw [List.mem_range] at hj
    simp [hddata j hj, Function.comp]
  -- stacking
  have hne_v : (List.range k).map (fun j => vel (j + 1)) ≠ [] := by
    simp [List.range_eq_nil]
    omega
  have hne_d : (List.range k).map (fun j => dir (j + 1)) ≠ [] := by
    simp [List.range_eq_nil]
    omega
  have hlen_v : ∀ r ∈ (List.range k).map (fun j => vel (j + 1)), r.length = T := by
    intro r hr
    rw [List.mem_map] at hr
    obtain ⟨j, hj, rfl⟩ := hr
    rw [List.mem_range] at hj
    exact (hlen (j + 1) (by omega) (by omega)).1
  have hlen_d : ∀ r ∈ (List.range k).map (fun j => dir (j + 1)), r.length = T := by
    intro r hr
    rw [List.mem_map] at hr
    obtain ⟨j, hj, rfl⟩ := hr
    rw [List.mem_range] at hj
    exact (hlen (j + 1) (by omega) (by omega)).2
  have hstack_v := npStack_map_arr1 _ T hne_v hlen_v
  have hstack_d := npStack_map_arr1 _ T hne_d hlen_d
  -- row length for the transpose
  have hrowlen_v : rowLen ((List.range k).map (fun j => vel (j + 1))) = T := by
    cases hr : (List.range k).map (fun j => vel (j + 1)) with
    | nil => exact absurd hr hne_v
    | cons r rest =>
      have hm : r ∈ (List.range k).map (fun j => vel (j + 1)) := hr ▸ List.mem_cons_self r rest
      simp [rowLen, hlen_v r hm]
  have hrowlen_d : rowLen ((List.range k).map (fun j => dir (j + 1))) = T := by
    cases hr : (List.range k).map (fun j => dir (j + 1)) with
    | nil => exact absurd hr hne_d
    | cons r rest =>
      have hm : r ∈ (List.range k).map (fun j => dir (j + 1)) := hr ▸ List.mem_cons_self r rest
      simp [rowLen, hlen_d r hm]
  have htrans_v : npTranspose (.arr2 ((List.range k).map (fun j => vel (j + 1)))) =
      .arr2 ((List.range T).map (fun t => (List.range k).map (fun j => (vel (j + 1)).getD t 0))) := by
    simp only [npTranspose, hrowlen_v, List.map_map]
    rfl
  have htrans_d : npTranspose (.arr2 ((List.range k).map (fun j => dir (j + 1)))) =
      .arr2 ((List.range T).map (fun t => (List.range k).map (fun j => (dir (j + 1)).getD t 0))) := by
    simp only [npTranspose, hrowlen_d, List.map_map]
    rfl
  -- the time variable is present
  obtain ⟨tv, htv⟩ := Option.isSome_iff_exists.mp htime
  -- assemble the currents transform
  refine ⟨setItem (setItem
      (setCoordsForce
        (setItem (setCoordsForce ds timeName) "depth"
          ⟨["depth"], .arr1 ((List.range k).map (fun (j : Nat) => (4 * (j + 1) : Int)))⟩)
        "depth")
      "current_velocity"
      ⟨["time", "depth"],
        .arr2 ((List.range T).map (fun t => (List.range k).map (fun j => (vel (j + 1)).getD t 0)))⟩)
      "current_direction"
      ⟨["time", "depth"],
        .arr2 ((List.range T).map (fun t => (List.range k).map (fun j => (dir (j + 1)).getD t 0)))⟩,
    ?_, ?_, ?_, ?_, ?_⟩
  · simp only [customizeRawDatasets, processEntry, hsurf, hgill, hkey, Bool.false_eq_true,
      if_false, if_true]
    simp only [currentsTransform, hscan, hvl, hdl, hstack_v, hstack_d, htrans_v, htrans_d,
      setCoords_ok _ _ _ htv, mkDataArray, NDArray.ndim, List.length_cons, List.length_nil,
      setCoords_ok _ _ _ (lookupVar_setItem_self _ "depth" _)]
    rfl
  · rw [lookupVar_setItem_ne _ _ _ _ (by decide), lookupVar_setItem_ne _ _ _ _ (by decide),
      lookupVar_setCoordsForce]
    exact lookupVar_setItem_self _ "depth" _
  · exact mem_coords_setCoordsForce _ "depth"
  · rw [lookupVar_setItem_ne _ _ _ _ (by decide)]
    exact lookupVar_setItem_self _ "current_velocity" _
  · exact lookupVar_setItem_self _ "current_direction" _

/-- Velocity series of `twoPairDataset` by pair index. -/
def twoPairVel (i : Nat) : List Int := if i = 1 then [10, 11] else [20, 21]

/-- Direction series of `twoPairDataset` by pair index. -/
def twoPairDir (i : Nat) : List Int := if i = 1 then [100, 101] else [200, 201]

/-- Witness for C1 on the concrete two-pair currents dataset. -/
theorem c1_currents_rule_witness :
    (1 ≤ 2 ∧ strContains "buoy.z05.currents.csv" "currents" = true) ∧
    (∃ out : Dataset,
      customizeRawDatasets "Timestamp" [("buoy.z05.currents.csv", twoPairDataset)] =
        .ok [("buoy.z05.currents.csv", out)] ∧
      out.lookupVar "depth" =
        some ⟨["depth"], .arr1 ((List.range 2).map (fun (j : Nat) => (4 * (j + 1) : Int)))⟩ ∧
      "depth" ∈ out.coords ∧
      out.lookupVar "current_velocity" =
        some ⟨["time", "depth"],
          .arr2 ((List.range 2).map (fun t => (List.range 2).map (fun j => (twoPairVel (j + 1)).getD t 0)))⟩ ∧
      out.lookupVar "current_direction" =
        some ⟨["time", "depth"],
          .arr2 ((List.range 2).map (fun t => (List.range 2).map (fun j => (twoPairDir (j + 1)).getD t 0)))⟩) :=
  ⟨⟨by decide, by rfl⟩,
   c1_currents_rule "Timestamp" "buoy.z05.currents.csv" twoPairDataset 2 2 twoPairVel twoPairDir
     (by rfl) (by rfl) (by rfl) (by decide) (by decide)
     (by
       intro i h1 h2
       interval_cases i
       · exact ⟨["index"], by rfl⟩
       · exact ⟨["index"], by rfl⟩)
     (by
       intro i h1 h2
       interval_cases i
       · exact ⟨["index"], by rfl⟩
       · exact ⟨["index"], by rfl⟩)
     (by
       intro i h1 h2
       interval_cases i
       · exact ⟨by rfl, by rfl⟩
       · exact ⟨by rfl, by rfl⟩)
     (Or.inl (by rfl)) (by rfl)⟩

/-! ### The attribute model (`tsdat/config/attributes.py`)

`GlobalAttributes` is a pydantic model with `Extra.allow`.  Construction
validates every declared field (collecting one error per failing field),
keeps unknown keys untouched, and then runs two root validators in order,
both skipped when any field error exists: the ASCII check inherited from
`AttributeModel`, and the datastream derivation.  Candidate attribute
values are strings, integers, or the Python `None`. -/

inductive AttrValue where
  | str (s : String)
  | int (n : Int)
  | null
  deriving DecidableEq, Repr

/-- Python truthiness of a candidate value, as used by the
`warn_if_dynamic_properties_are_set` pre-validator (`if v:`). -/
def attrTruthy : AttrValue → Bool
  | .str s => !(s == "")
  | .int n => !(n == 0)
  | .null => false

/-- Value lookup in the candidate mapping. -/
def lookupAttr (input : List (String × AttrValue)) (k : String) : Option AttrValue :=
  input.lookup k

/-- Lenient pydantic `str` coercion: strings pass, numbers are stringified,
`None` is rejected for a non-optional field. -/
def coerceStr (k : String) : AttrValue → Except String String
  | .str s => .ok s
  | .int n => .ok (toString n)
  | .null => .error (k ++ ": none is not an allowed value")

/-- Pydantic `StrictStr`: only actual strings pass. -/
def coerceStrictStr (k : String) : AttrValue → Except String String
  | .str s => .ok s
  | _ => .error (k ++ ": str type expected")

/-- The regex charset `[A-Za-z0-9_]` (codepoint ranges of the pattern). -/
def isWordChar (c : Char) : Bool :=
  (65 ≤ c.toNat && c.toNat ≤ 90) || (97 ≤ c.toNat && c.toNat ≤ 122) ||
    (48 ≤ c.toNat && c.toNat ≤ 57) || c.toNat == 95

/-- The regex charset `[a-z0-9_]`. -/
def isLowerWordChar (c : Char) : Bool :=
  (97 ≤ c.toNat && c.toNat ≤ 122) || (48 ≤ c.toNat && c.toNat ≤ 57) || c.toNat == 95

/-- The regex charset `[a-z0-9]`. -/
def isLowerAlnumChar (c : Char) : Bool :=
  (97 ≤ c.toNat && c.toNat ≤ 122) || (48 ≤ c.toNat && c.toNat ≤ 57)

/-- The regex charset `[0-9]`. -/
def isDigitChar (c : Char) : Bool := 48 ≤ c.toNat && c.toNat ≤ 57

/-- The regex charset `[a-zA-Z]`. -/
def isLetterChar (c : Char) : Bool :=
  (65 ≤ c.toNat && c.toNat ≤ 90) || (97 ≤ c.toNat && c.toNat ≤ 122)

/-- The anchored pattern `[0-9]+[a-zA-Z]+` of the `temporal` field: a
nonempty digit prefix followed by a nonempty letter suffix. -/
def temporalPattern (s : String) : Bool :=
  let ds := s.data.takeWhile isDigitChar
  let rest := s.data.dropWhile isDigitChar
  !ds.isEmpty && !rest.isEmpty && rest.all isLetterChar

/-- `HttpUrl` is a pydantic builtin living outside this repository; the
syntactic URL validation is modelled as its scheme check. -/
def validHttpUrl (s : String) : Bool :=
  s.startsWith "http://" || s.startsWith "https://"

/-- `title: str = Field(min_length=1)`. -/
def parseTitle (input : List (String × AttrValue)) : Except String String :=
  match lookupAttr input "title" with
  | Option.none => .error "title: field required"
  | some v =>
    match coerceStr "title" v with
    | .error e => .error e
    | .ok s => if 1 ≤ s.length then .ok s else .error "title: at least 1 character required"

/-- `description: str = Field(min_length=1)`. -/
def parseDescription (input : List (String × AttrValue)) : Except String String :=
  match lookupAttr input "description" with
  | Option.none => .error "description: field required"
  | some v =>
    match coerceStr "description" v with
    | .error e => .error e
    | .ok s => if 1 ≤ s.length then .ok s else .error "description: at least 1 character required"

/-- `code_url: Optional[HttpUrl] = Field(default=None)`. -/
def parseCodeUrl (input : List (String × AttrValue)) : Except String (Option String) :=
  match lookupAttr input "code_url" with
  | Option.none => .ok Option.none
  | some .null => .ok Option.none
  | some v =>
    match coerceStr "code_url" v with
    | .error e => .error e
    | .ok s => if validHttpUrl s then .ok (some s) else .error "code_url: invalid or missing URL scheme"

/-- An `Optional[StrictStr]` field with default `None` (used by
`conventions`, `doi`, `institution` and `references`). -/
def parseOptStrictStr (k : String) (input : List (String × AttrValue)) :
    Except String (Option String) :=
  match lookupAttr input k with
  | Option.none => .ok Option.none
  | some .null => .ok Option.none
  | some v =>
    match coerceStrictStr k v with
    | .error e => .error e
    | .ok s => .ok (some s)

/-- `location_id: str = Field(min_length=1, regex=r"^[a-zA-Z0-9_]+$")`. -/
def parseLocationId (input : List (String × AttrValue)) : Except String String :=
  match lookupAttr input "location_id" with
  | Option.none => .error "location_id: field required"
  | some v =>
    match coerceStr "location_id" v with
    | .error e => .error e
    | .ok s =>
      if 1 ≤ s.length then
        if s.data.all isWordChar then .ok s
        else .error "location_id: string does not match regex"
      else .error "location_id: at least 1 character required"

/-- `dataset_name: str = Field(min_length=2, regex=r"^[a-z0-9_]+$")`. -/
def parseDatasetName (input : List (String × AttrValue)) : Except String String :=
  match lookupAttr input "dataset_name" with
  | Option.none => .error "dataset_name: field required"
  | some v =>
    match coerceStr "dataset_name" v with
    | .error e => .error e
    | .ok s =>
      if 2 ≤ s.length then
        if s.data.all isLowerWordChar then .ok s
        else .error "dataset_name: string does not match regex"
      else .error "dataset_name: at least 2 characters required"

/-- `qualifier: Optional[str] = Field(default=None, min_length=1, regex=r"^[a-zA-Z0-9_]+$")`. -/
def parseQualifier (input : List (String × AttrValue)) : Except String (Option String) :=
  match lookupAttr input "qualifier" with
  | Option.none => .ok Option.none
  | some .null => .ok Option.none
  | some v =>
    match coerceStr "qualifier" v with
    | .error e => .error e
    | .ok s =>
      if 1 ≤ s.length then
        if s.data.all isWordChar then .ok (some s)
        else .error "qualifier: string does not match regex"
      else .error "qualifier: at least 1 character required"

/-- `temporal: Optional[str] = Field(default=None, min_length=2, regex=r"^[0-9]+[a-zA-Z]+$")`. -/
def parseTemporal (input : List (String × AttrValue)) : Except String (Option String) :=
  match lookupAttr input "temporal" with
  | Option.none => .ok Option.none
  | some .null => .ok Option.none
  | some v =>
    match coerceStr "temporal" v with
    | .error e => .error e
    | .ok s =>
      if 2 ≤ s.length then
        if temporalPattern s then .ok (some s)
        else .error "temporal: string does not match regex"
      else .error "temporal: at least 2 characters required"

/-- `data_level: str = Field(min_length=2, max_length=3, regex=r"^[a-z0-9]+$")`. -/
def parseDataLevel (input : List (String × AttrValue)) : Except String String :=
  match lookupAttr input "data_level" with
  | Option.none => .error "data_level: field required"
  | some v =>
    match coerceStr "data_level" v with
    | .error e => .error e
    | .ok s =>
      if 2 ≤ s.length then
        if s.length ≤ 3 then
          if s.data.all isLowerAlnumChar then .ok s
          else .error "data_level: string does not match regex"
        else .error "data_level: at most 3 characters allowed"
      else .error "data_level: at least 2 characters required"

/-- `datastream: StrictStr = Field("")`: empty-string default, strict
string type, no further constraint (the derivation happens in a root
validator after all fields resolve). -/
def parseDatastream (input : List (String × AttrValue)) : Except String String :=
  match lookupAttr input "datastream" with
  | Option.none => .ok ""
  | some v => coerceStrictStr "datastream" v

/-- `history: StrictStr = Field("")` with the
`warn_if_dynamic_properties_are_set` pre-validator: any supplied value is
replaced by the empty string before type validation, so this field never
fails and never keeps a caller-supplied value. -/
def parseHistory (input : List (String × AttrValue)) : Except String String :=
  match lookupAttr input "history" with
  | Option.none => .ok ""
  | some _ => .ok ""

/-- Modelled from the spec: `get_code_version` (imported from
`tsdat.config.utils`, not under `src/`) reads the `CODE_VERSION`
environment variable and otherwise falls back to a source-control-derived
semantic version; the environment and the source-control answer are passed
here as parameters. -/
def get_code_version (envCodeVersion : Option String) (vcsVersion : String) : String :=
  match envCodeVersion with
  | some v => v
  | Option.none => vcsVersion

/-- `code_version: StrictStr = Field(default_factory=get_code_version)`
with the same pre-validator as `history`: the default factory runs only
when the key is absent from the input; any supplied value is replaced by
the empty string. -/
def parseCodeVersion (envCodeVersion : Option String) (vcsVersion : String)
    (input : List (String × AttrValue)) : Except String String :=
  match lookupAttr input "code_version" with
  | Option.none => .ok (get_code_version envCodeVersion vcsVersion)
  | some _ => .ok ""

/-- Warning text of `warn_if_dynamic_properties_are_set` for one field. -/
def dynamicPropertyWarning (fieldName valueText : String) : String :=
  "The " ++ fieldName ++ " attribute should not be set explicitly. The current value of " ++
    valueText ++ " will be ignored."

/-- Printed form of a candidate value inside the warning message. -/
def attrValueText : AttrValue → String
  | .str s => s
  | .int n => toString n
  | .null => "None"

/-- Warnings emitted for the `history` field: the pre-validator warns iff
the key is present with a truthy value. -/
def historyWarnings (input : List (String × AttrValue)) : List String :=
  match lookupAttr input "history" with
  | some v => if attrTruthy v then [dynamicPropertyWarning "history" (attrValueText v)] else []
  | Option.none => []

/-- Warnings emitted for the `code_version` field. -/
def codeVersionWarnings (input : List (String × AttrValue)) : List String :=
  match lookupAttr input "code_version" with
  | some v => if attrTruthy v then [dynamicPropertyWarning "code_version" (attrValueText v)] else []
  | Option.none => []

/-- All warnings of one construction, in field declaration order. -/
def gaWarnings (input : List (String × AttrValue)) : List String :=
  historyWarnings input ++ codeVersionWarnings input

/-- The declared field names of `GlobalAttributes`, in declaration order. -/
def declaredFields : List String :=
  ["title", "description", "code_url", "conventions", "doi", "institution", "references",
   "location_id", "dataset_name", "qualifier", "temporal", "data_level",
   "datastream", "history", "code_version"]

/-- The unknown keys of the input, kept untouched by `Extra.allow`. -/
def extrasOf (input : List (String × AttrValue)) : List (String × AttrValue) :=
  input.filter (fun p => !(declaredFields.contains p.1))

/-- A constructed `GlobalAttributes` record: the declared fields plus the
pass-through bag of unknown attributes. -/
structure GlobalAttributes where
  title : String
  description : String
  code_url : Option String
  conventions : Option String
  doi : Option String
  institution : Option String
  references : Option String
  location_id : String
  dataset_name : String
  qualifier : Option String
  temporal : Option String
  data_level : String
  datastream : String
  history : String
  code_version : String
  extras : List (String × AttrValue)
  deriving DecidableEq, Repr

/-- View of an optional string field as a dictionary value (`None` for an
absent optional). -/
def optVal : Option String → AttrValue
  | some s => .str s
  | Option.none => .null

/-- The `values` dictionary seen by the root validators: declared fields in
declaration order, then the extra attributes in input order. -/
def orderedValues (g : GlobalAttributes) : List (String × AttrValue) :=
  [("title", .str g.title), ("description", .str g.description),
   ("code_url", optVal g.code_url), ("conventions", optVal g.conventions),
   ("doi", optVal g.doi), ("institution", optVal g.institution),
   ("references", optVal g.references), ("location_id", .str g.location_id),
   ("dataset_name", .str g.dataset_name), ("qualifier", optVal g.qualifier),
   ("temporal", optVal g.temporal), ("data_level", .str g.data_level),
   ("datastream", .str g.datastream), ("history", .str g.history),
   ("code_version", .str g.code_version)] ++ g.extras

/-- The `AttributeModel.validate_all_ascii` root validator: walk the values
in order and raise at the first non-ASCII key or non-ASCII string value. -/
def validateAllAscii : List (String × AttrValue) → Except String Unit
  | [] => .ok ()
  | (k, v) :: rest =>
    if !strIsAscii k then .error (k ++ " contains a non-ascii character")
    else
      match v with
      | .str s =>
        if !strIsAscii s then .error ("attr " ++ k ++ " value contains a non-ascii character")
        else validateAllAscii rest
      | _ => validateAllAscii rest

/-- Modelled from the spec: `get_datastream` (imported from `tsdat.utils`,
not under `src/`) derives the canonical datastream label
`"{location_id}.{dataset_name}{_qualifier}{_temporal}.{data_level}"`, where
the qualifier and temporal parts are prepended with a literal `-` when
present and empty otherwise. -/
def dashOpt : Option String → String
  | some q => "-" ++ q
  | Option.none => ""

def get_datastream (location_id dataset_name : String) (qualifier temporal : Option String)
    (data_level : String) : String :=
  location_id ++ "." ++ dataset_name ++ dashOpt qualifier ++ dashOpt temporal ++ "." ++ data_level

/-- The `GlobalAttributes.add_datastream_field` root validator: fill in the
derived datastream only when the resolved `datastream` value is empty. -/
def addDatastreamField (g : GlobalAttributes) : GlobalAttributes :=
  if g.datastream == "" then
    { g with datastream :=
        get_datastream g.location_id g.dataset_name g.qualifier g.temporal g.data_level }
  else g

/-- Errors contributed by one field validation. -/
def errOf {α : Type} : Except String α → List String
  | .error e => [e]
  | .ok _ => []

/-- All field-validation errors, in field declaration order (pydantic
validates every field and collects the failures together). -/
def fieldErrors (envCodeVersion : Option String) (vcsVersion : String)
    (input : List (String × AttrValue)) : List String :=
  errOf (parseTitle input) ++ errOf (parseDescription input) ++ errOf (parseCodeUrl input) ++
  errOf (parseOptStrictStr "conventions" input) ++ errOf (parseOptStrictStr "doi" input) ++
  errOf (parseOptStrictStr "institution" input) ++ errOf (parseOptStrictStr "references" input) ++
  errOf (parseLocationId input) ++ errOf (parseDatasetName input) ++
  errOf (parseQualifier input) ++ errOf (parseTemporal input) ++ errOf (parseDataLevel input) ++
  errOf (parseDatastream input) ++ errOf (parseHistory input) ++
  errOf (parseCodeVersion envCodeVersion vcsVersion input)

/-- Field-validation phase: either every declared field resolves and the
record (datastream not yet derived) is produced with the extras attached,
or the collected list of field errors is raised. -/
def parseFields (envCodeVersion : Option String) (vcsVersion : String)
    (input : List (String × AttrValue)) : Except (List String) GlobalAttributes :=
  match parseTitle input, parseDescription input, parseCodeUrl input,
        parseOptStrictStr "conventions" input, parseOptStrictStr "doi" input,
        parseOptStrictStr "institution" input, parseOptStrictStr "references" input,
        parseLocationId input, parseDatasetName input, parseQualifier input,
        parseTemporal input, parseDataLevel input, parseDatastream input,
        parseHistory input, parseCodeVersion envCodeVersion vcsVersion input with
  | .ok t, .ok de, .ok cu, .ok cv, .ok doi, .ok inst, .ok refs, .ok loc, .ok dn,
    .ok q, .ok tp, .ok dl, .ok dstr, .ok h, .ok cver =>
    .ok ⟨t, de, cu, cv, doi, inst, refs, loc, dn, q, tp, dl, dstr, h, cver, extrasOf input⟩
  | _, _, _, _, _, _, _, _, _, _, _, _, _, _, _ =>
    .error (fieldErrors envCodeVersion vcsVersion input)

/-- Embedding of `GlobalAttributes(**input)`: field validation with error
collection, then the two root validators (both skipped whenever field
errors exist): the inherited ASCII check over all resolved values and
extras, then the datastream derivation. -/
def mkGlobalAttributes (envCodeVersion : Option String) (vcsVersion : String)
    (input : List (String × AttrValue)) : Except (List String) GlobalAttributes :=
  match parseFields envCodeVersion vcsVersion input with
  | .error es => .error es
  | .ok g =>
    match validateAllAscii (orderedValues g) with
    | .error e => .error [e]
    | .ok _ => .ok (addDatastreamField g)

/-! ### Inversion lemmas for the attribute model -/

/-- Successful field validation pins down every parse result. -/
theorem parseFields_ok_spec (envCodeVersion : Option String) (vcsVersion : String)
    (input : List (String × AttrValue)) (g : GlobalAttributes)
    (h : parseFields envCodeVersion vcsVersion input = .ok g) :
    parseTitle input = .ok g.title ∧ parseDescription input = .ok g.description ∧
    parseCodeUrl input = .ok g.code_url ∧
    parseOptStrictStr "conventions" input = .ok g.conventions ∧
    parseOptStrictStr "doi" input = .ok g.doi ∧
    parseOptStrictStr "institution" input = .ok g.institution ∧
    parseOptStrictStr "references" input = .ok g.references ∧
    parseLocationId input = .ok g.location_id ∧
    parseDatasetName input = .ok g.dataset_name ∧
    parseQualifier input = .ok g.qualifier ∧
    parseTemporal input = .ok g.temporal ∧
    parseDataLevel input = .ok g.data_level ∧
    parseDatastream input = .ok g.datastream ∧
    parseHistory input = .ok g.history ∧
    parseCodeVersion envCodeVersion vcsVersion input = .ok g.code_version ∧
    g.extras = extrasOf input := by
  unfold parseFields at h
  split at h
  · obtain rfl := (Except.ok.injEq _ _).mp h.symm
    simp_all
  · simp at h

/-- The construction succeeds exactly through field validation, the ASCII
root check, and the datastream root validator. -/
theorem mkGlobalAttributes_ok_inv (envCodeVersion : Option String) (vcsVersion : String)
    (input : List (String × AttrValue)) (g : GlobalAttributes)
    (h : mkGlobalAttributes envCodeVersion vcsVersion input = .ok g) :
    ∃ g0, parseFields envCodeVersion vcsVersion input = .ok g0 ∧
      validateAllAscii (orderedValues g0) = .ok () ∧ g = addDatastreamField g0 := by
  unfold mkGlobalAttributes at h
  split at h
  · simp at h
  · rename_i g0 hp
    split at h
    · simp at h
    · rename_i u ha
      obtain rfl := (Except.ok.injEq _ _).mp h.symm
      exact ⟨g0, hp, by cases u; exact ha, rfl⟩

/-- A passing ASCII root check means every key and every string value in
the list is ASCII. -/
theorem validateAllAscii_ok_forall (l : List (String × AttrValue))
    (h : validateAllAscii l = .ok ()) :
    ∀ p ∈ l, strIsAscii p.1 = true ∧ ∀ s, p.2 = .str s → strIsAscii s = true := by
  induction l with
  | nil => intro p hp; simp at hp
  | cons kv rest ih =>
    obtain ⟨k, v⟩ := kv
    intro p hp
    by_cases hk : strIsAscii k = true
    · rcases List.mem_cons.mp hp with rfl | hmem
      · refine ⟨hk, ?_⟩
        intro s hs
        subst hs
        by_cases hsa : strIsAscii s = true
        · exact hsa
        · simp [validateAllAscii, hk, hsa] at h
      · cases v with
        | str s =>
          by_cases hsa : strIsAscii s = true
          · exact ih (by simpa [validateAllAscii, hk, hsa] using h) p hmem
          · simp [validateAllAscii, hk, hsa] at h
        | int n => exact ih (by simpa [validateAllAscii, hk] using h) p hmem
        | null => exact ih (by simpa [validateAllAscii, hk] using h) p hmem
    · simp [validateAllAscii, hk] at h

/-! ### ASCII lemmas -/

theorem strIsAscii_append (a b : String) :
    strIsAscii (a ++ b) = (strIsAscii a && strIsAscii b) := by
  have hd : (a ++ b).data = a.data ++ b.data := String.data_append a b
  simp [strIsAscii, hd, List.all_append]

theorem all_isWordChar_ascii (s : String) (h : s.data.all isWordChar = true) :
    strIsAscii s = true := by
  rw [List.all_eq_true] at h
  rw [strIsAscii, List.all_eq_true]
  intro c hc
  have := h c hc
  simp [isWordChar] at this
  simp only [decide_eq_true_eq]
  omega

theorem all_isLowerWordChar_ascii (s : String) (h : s.data.all isLowerWordChar = true) :
    strIsAscii s = true := by
  rw [List.all_eq_true] at h
  rw [strIsAscii, List.all_eq_true]
  intro c hc
  have := h c hc
  simp [isLowerWordChar] at this
  simp only [decide_eq_true_eq]
  omega

theorem all_isLowerAlnumChar_ascii (s : String) (h : s.data.all isLowerAlnumChar = true) :
    strIsAscii s = true := by
  rw [List.all_eq_true] at h
  rw [strIsAscii, List.all_eq_true]
  intro c hc
  have := h c hc
  simp [isLowerAlnumChar] at this
  simp only [decide_eq_true_eq]
  omega

theorem temporalPattern_ascii (s : String) (h : temporalPattern s = true) :
    strIsAscii s = true := by
  rw [strIsAscii, List.all_eq_true]
  intro c hc
  simp only [temporalPattern, Bool.and_eq_true] at h
  rw [← List.takeWhile_append_dropWhile (p := isDigitChar) (l := s.data)] at hc
  simp only [decide_eq_true_eq]
  rcases List.mem_append.mp hc with hm | hm
  · have := List.mem_takeWhile_imp hm
    simp [isDigitChar] at this
    omega
  · have := List.all_eq_true.mp h.2 c hm
    simp [isLetterChar] at this
    omega

/-- An option whose payload, when present, is ASCII. -/
def optIsAscii : Option String → Bool
  | some s => strIsAscii s
  | Option.none => true

theorem dashOpt_ascii (o : Option String) (h : optIsAscii o = true) :
    strIsAscii (dashOpt o) = true := by
  cases o with
  | none => rfl
  | some q =>
    simp only [dashOpt, strIsAscii_append]
    simp [optIsAscii] at h
    simp [h]
    rfl

/-- ASCII of every stored string of a constructed record: the declared
string fields, the optional fields when present, the derived or kept
datastream, and every extra key and extra string value. -/
def gaAllAscii (g : GlobalAttributes) : Bool :=
  strIsAscii g.title && strIsAscii g.description && optIsAscii g.code_url &&
  optIsAscii g.conventions && optIsAscii g.doi && optIsAscii g.institution &&
  optIsAscii g.references && strIsAscii g.location_id && strIsAscii g.dataset_name &&
  optIsAscii g.qualifier && optIsAscii g.temporal && strIsAscii g.data_level &&
  strIsAscii g.datastream && strIsAscii g.history && strIsAscii g.code_version &&
  g.extras.all (fun p => strIsAscii p.1 &&
    (match p.2 with | .str s => strIsAscii s | _ => true))

/-! ### Per-field parse characterizations -/

theorem lookup_mem {α β : Type} [BEq α] [LawfulBEq α] (l : List (α × β)) (k : α) (v : β)
    (h : l.lookup k = some v) : (k, v) ∈ l := by
  induction l with
  | nil => simp [List.lookup] at h
  | cons kv rest ih =>
    obtain ⟨a, b⟩ := kv
    cases hk : (k == a) with
    | true =>
      have hb : b = v := by simpa [List.lookup, hk] using h
      have ha : k = a := eq_of_beq hk
      subst hb
      subst ha
      exact List.mem_cons_self _ _
    | false =>
      have hrest : List.lookup k rest = some v := by simpa [List.lookup, hk] using h
      exact List.mem_cons_of_mem _ (ih hrest)

theorem declared_ascii (k : String) (hk : k ∈ declaredFields) : strIsAscii k = true := by
  simp only [declaredFields, List.mem_cons, List.not_mem_nil, or_false] at hk
  rcases hk with rfl | rfl | rfl | rfl | rfl | rfl | rfl | rfl | rfl | rfl | rfl | rfl | rfl |
    rfl | rfl <;> rfl

theorem parseTitle_str_ok (input : List (String × AttrValue)) (s t : String)
    (hl : lookupAttr input "title" = some (.str s)) (h : parseTitle input = .ok t) : t = s := by
  simp only [parseTitle, hl, coerceStr] at h
  split at h
  · exact ((Except.ok.injEq _ _).mp h).symm
  · simp at h

theorem parseDescription_str_ok (input : List (String × AttrValue)) (s t : String)
    (hl : lookupAttr input "description" = some (.str s))
    (h : parseDescription input = .ok t) : t = s := by
  simp only [parseDescription, hl, coerceStr] at h
  split at h
  · exact ((Except.ok.injEq _ _).mp h).symm
  · simp at h

theorem parseCodeUrl_str_ok (input : List (String × AttrValue)) (s : String) (o : Option String)
    (hl : lookupAttr input "code_url" = some (.str s)) (h : parseCodeUrl input = .ok o) :
    o = some s := by
  simp only [parseCodeUrl, hl, coerceStr] at h
  split at h
  · exact ((Except.ok.injEq _ _).mp h).symm
  · simp at h

theorem parseOptStrictStr_str_ok (k : String) (input : List (String × AttrValue)) (s : String)
    (o : Option String) (hl : lookupAttr input k = some (.str s))
    (h : parseOptStrictStr k input = .ok o) : o = some s := by
  simp only [parseOptStrictStr, hl, coerceStrictStr] at h
  exact ((Except.ok.injEq _ _).mp h).symm

theorem parseDatastream_str_ok (input : List (String × AttrValue)) (s t : String)
    (hl : lookupAttr input "datastream" = some (.str s))
    (h : parseDatastream input = .ok t) : t = s := by
  simp only [parseDatastream, hl, coerceStrictStr] at h
  exact ((Except.ok.injEq _ _).mp h).symm

theorem parseLocationId_str_ok (input : List (String × AttrValue)) (s t : String)
    (hl : lookupAttr input "location_id" = some (.str s))
    (h : parseLocationId input = .ok t) : t = s ∧ s.data.all isWordChar = true := by
  simp only [parseLocationId, hl, coerceStr] at h
  split at h
  · split at h
    · exact ⟨((Except.ok.injEq _ _).mp h).symm, by assumption⟩
    · simp at h
  · simp at h

theorem parseDatasetName_str_ok (input : List (String × AttrValue)) (s t : String)
    (hl : lookupAttr input "dataset_name" = some (.str s))
    (h : parseDatasetName input = .ok t) : t = s ∧ s.data.all isLowerWordChar = true := by
  simp only [parseDatasetName, hl, coerceStr] at h
  split at h
  · split at h
    · exact ⟨((Except.ok.injEq _ _).mp h).symm, by assumption⟩
    · simp at h
  · simp at h

theorem parseQualifier_str_ok (input : List (String × AttrValue)) (s : String) (o : Option String)
    (hl : lookupAttr input "qualifier" = some (.str s))
    (h : parseQualifier input = .ok o) : o = some s ∧ s.data.all isWordChar = true := by
  simp only [parseQualifier, hl, coerceStr] at h
  split at h
  · split at h
    · exact ⟨((Except.ok.injEq _ _).mp h).symm, by assumption⟩
    · simp at h
  · simp at h

theorem parseTemporal_str_ok (input : List (String × AttrValue)) (s : String) (o : Option String)
    (hl : lookupAttr input "temporal" = some (.str s))
    (h : parseTemporal input = .ok o) : o = some s ∧ temporalPattern s = true := by
  simp only [parseTemporal, hl, coerceStr] at h
  split at h
  · split at h
    · exact ⟨((Except.ok.injEq _ _).mp h).symm, by assumption⟩
    · simp at h
  · simp at h

theorem parseDataLevel_str_ok (input : List (String × AttrValue)) (s t : String)
    (hl : lookupAttr input "data_level" = some (.str s))
    (h : parseDataLevel input = .ok t) : t = s ∧ s.data.all isLowerAlnumChar = true := by
  simp only [parseDataLevel, hl, coerceStr] at h
  split at h
  · split at h
    · split at h
      · exact ⟨((Except.ok.injEq _ _).mp h).symm, by assumption⟩
      · simp at h
    · simp at h
  · simp at h

/-! ### C4: the ASCII invariant -/

/-- C4 (amended): a successfully constructed instance stores only ASCII
keys and string values (the derived datastream included), and a non-ASCII
key or non-ASCII string value in the candidate mapping makes construction
fail, for every key other than the pipeline-owned `history` and
`code_version` (whose supplied values are discarded by their pre-validator
before the ASCII root check runs). -/
theorem c4_ascii_invariant (envCodeVersion : Option String) (vcsVersion : String)
    (input : List (String × AttrValue)) :
    (∀ g, mkGlobalAttributes envCodeVersion vcsVersion input = .ok g → gaAllAscii g = true) ∧
    (∀ k v, lookupAttr input k = some v → ¬ k = "history" → ¬ k = "code_version" →
      (strIsAscii k = false ∨ ∃ s, v = .str s ∧ strIsAscii s = false) →
      ∃ es, mkGlobalAttributes envCodeVersion vcsVersion input = .error es) := by
  constructor
  · -- a constructed instance is all-ASCII
    intro g hres
    obtain ⟨g0, hp, ha, rfl⟩ := mkGlobalAttributes_ok_inv _ _ _ _ hres
    have hall := validateAllAscii_ok_forall _ ha
    have h01 : strIsAscii g0.title = true :=
      (hall ("title", .str g0.title) (by simp [orderedValues])).2 _ rfl
    have h02 : strIsAscii g0.description = true :=
      (hall ("description", .str g0.description) (by simp [orderedValues])).2 _ rfl
    have hopt : ∀ (name : String) (o : Option String),
        (name, optVal o) ∈ orderedValues g0 → optIsAscii o = true := by
      intro name o hm
      cases o with
      | none => rfl
      | some s => exact (hall _ hm).2 s rfl
    have h03 : optIsAscii g0.code_url = true :=
      hopt "code_url" _ (by simp [orderedValues])
    have h04 : optIsAscii g0.conventions = true :=
      hopt "conventions" _ (by simp [orderedValues])
    have h05 : optIsAscii g0.doi = true :=
      hopt "doi" _ (by simp [orderedValues])
    have h06 : optIsAscii g0.institution = true :=
      hopt "institution" _ (by simp [orderedValues])
    have h07 : optIsAscii g0.references = true :=
      hopt "references" _ (by simp [orderedValues])
    have h08 : strIsAscii g0.location_id = true :=
      (hall ("location_id", .str g0.location_id) (by simp [orderedValues])).2 _ rfl
    have h09 : strIsAscii g0.dataset_name = true :=
      (hall ("dataset_name", .str g0.dataset_name) (by simp [orderedValues])).2 _ rfl
    have h10 : optIsAscii g0.qualifier = true :=
      hopt "qualifier" _ (by simp [orderedValues])
    have h11 : optIsAscii g0.temporal = true :=
      hopt "temporal" _ (by simp [orderedValues])
    have h12 : strIsAscii g0.data_level = true :=
      (hall ("data_level", .str g0.data_level) (by simp [orderedValues])).2 _ rfl
    have h13 : strIsAscii g0.datastream = true :=
      (hall ("datastream", .str g0.datastream) (by simp [orderedValues])).2 _ rfl
    have h14 : strIsAscii g0.history = true :=
      (hall ("history", .str g0.history) (by simp [orderedValues])).2 _ rfl
    have h15 : strIsAscii g0.code_version = true :=
      (hall ("code_version", .str g0.code_version) (by simp [orderedValues])).2 _ rfl
    have h16 : g0.extras.all (fun p => strIsAscii p.1 &&
        (match p.2 with | .str s => strIsAscii s | _ => true)) = true := by
      rw [List.all_eq_true]
      intro p hp2
      have hm : p ∈ orderedValues g0 := by
        simp only [orderedValues]
        exact List.mem_append_right _ hp2
      obtain ⟨hk, hv⟩ := hall p hm
      rw [Bool.and_eq_true]
      refine ⟨hk, ?_⟩
      cases hpv : p.2 with
      | str s => exact hv s hpv
      | int n => rfl
      | null => rfl
    have hdot : strIsAscii "." = true := by rfl
    have hderived : strIsAscii (get_datastream g0.location_id g0.dataset_name g0.qualifier
        g0.temporal g0.data_level) = true := by
      simp [get_datastream, strIsAscii_append, h08, h09, h12, hdot,
        dashOpt_ascii _ h10, dashOpt_ascii _ h11]
    cases hb : (g0.datastream == "") with
    | true =>
      simp [addDatastreamField, hb, gaAllAscii, h01, h02, h03, h04, h05, h06, h07, h08, h09,
        h10, h11, h12, h14, h15, h16, hderived]
    | false =>
      simp [addDatastreamField, hb, gaAllAscii, h01, h02, h03, h04, h05, h06, h07, h08, h09,
        h10, h11, h12, h13, h14, h15, h16]
  · -- a non-ASCII key or string value (outside history/code_version) is fatal
    intro k v hl hkh hkc hbad
    cases hres : mkGlobalAttributes envCodeVersion vcsVersion input with
    | error es => exact ⟨es, rfl⟩
    | ok g =>
      exfalso
      obtain ⟨g0, hp, ha, hg⟩ := mkGlobalAttributes_ok_inv _ _ _ _ hres
      obtain ⟨ht, hde, hcu, hcv, hdoi, hinst, hrefs, hloc, hdn, hq, htp, hdl, hdstr, hh, hcver,
        hex⟩ := parseFields_ok_spec _ _ _ _ hp
      have hall := validateAllAscii_ok_forall _ ha
      by_cases hdecl : k ∈ declaredFields
      · rcases hbad with hknon | ⟨s, rfl, hsnon⟩
        · rw [declared_ascii k hdecl] at hknon
          cases hknon
        · simp only [declaredFields, List.mem_cons, List.not_mem_nil, or_false] at hdecl
          rcases hdecl with rfl | rfl | rfl | rfl | rfl | rfl | rfl | rfl | rfl | rfl | rfl |
            rfl | rfl | rfl | rfl
          · -- title
            have hts := parseTitle_str_ok input s g0.title hl ht
            have := (hall ("title", .str g0.title) (by simp [orderedValues])).2 _ rfl
            rw [hts, hsnon] at this
            cases this
          · -- description
            have hts := parseDescription_str_ok input s g0.description hl hde
            have := (hall ("description", .str g0.description) (by simp [orderedValues])).2 _ rfl
            rw [hts, hsnon] at this
            cases this
          · -- code_url
            have hts := parseCodeUrl_str_ok input s g0.code_url hl hcu
            have := (hall ("code_url", optVal g0.code_url) (by simp [orderedValues])).2 s
              (by rw [hts]; rfl)
            rw [hsnon] at this
            cases this
          · -- conventions
            have hts := parseOptStrictStr_str_ok "conventions" input s g0.conventions hl hcv
            have := (hall ("conventions", optVal g0.conventions) (by simp [orderedValues])).2 s
              (by rw [hts]; rfl)
            rw [hsnon] at this
            cases this
          · -- doi
            have hts := parseOptStrictStr_str_ok "doi" input s g0.doi hl hdoi
            have := (hall ("doi", optVal g0.doi) (by simp [orderedValues])).2 s
              (by rw [hts]; rfl)
            rw [hsnon] at this
            cases this
          · -- institution
            have hts := parseOptStrictStr_str_ok "institution" input s g0.institution hl hinst
            have := (hall ("institution", optVal g0.institution) (by simp [orderedValues])).2 s
              (by rw [hts]; rfl)
            rw [hsnon] at this
            cases this
          · -- references
            have hts := parseOptStrictStr_str_ok "references" input s g0.references hl hrefs
            have := (hall ("references", optVal g0.references) (by simp [orderedValues])).2 s
              (by rw [hts]; rfl)
            rw [hsnon] at this
            cases this
          · -- location_id: the charset check itself forbids non-ASCII
            obtain ⟨heq, hcs⟩ := parseLocationId_str_ok input s g0.location_id hl hloc
            rw [all_isWordChar_ascii s hcs] at hsnon
            cases hsnon
          · -- dataset_name
            obtain ⟨heq, hcs⟩ := parseDatasetName_str_ok input s g0.dataset_name hl hdn
            rw [all_isLowerWordChar_ascii s hcs] at hsnon
            cases hsnon
          · -- qualifier
            obtain ⟨heq, hcs⟩ := parseQualifier_str_ok input s g0.qualifier hl hq
            rw [all_isWordChar_ascii s hcs] at hsnon
            cases hsnon
          · -- temporal
            obtain ⟨heq, hcs⟩ := parseTemporal_str_ok input s g0.temporal hl htp
            rw [temporalPattern_ascii s hcs] at hsnon
            cases hsnon
          · -- data_level
            obtain ⟨heq, hcs⟩ := parseDataLevel_str_ok input s g0.data_level hl hdl
            rw [all_isLowerAlnumChar_ascii s hcs] at hsnon
            cases hsnon
          · -- datastream
            have hts := parseDatastream_str_ok input s g0.datastream hl hdstr
            have := (hall ("datastream", .str g0.datastream) (by simp [orderedValues])).2 _ rfl
            rw [hts, hsnon] at this
            cases this
          · exact hkh rfl
          · exact hkc rfl
      · -- an unknown key is carried into the extras and scanned there
        have hmem : (k, v) ∈ input := lookup_mem input k v hl
        have hext : (k, v) ∈ extrasOf input := by
          rw [extrasOf, List.mem_filter]
          exact ⟨hmem, by simpa using hdecl⟩
        have hmo : (k, v) ∈ orderedValues g0 := by
          simp only [orderedValues]
          exact List.mem_append_right _ (hex ▸ hext)
        obtain ⟨hka, hva⟩ := hall _ hmo
        rcases hbad with hknon | ⟨s, rfl, hsnon⟩
        · rw [hka] at hknon
          cases hknon
        · rw [hva s rfl] at hsnon
          cases hsnon

/-! ### Projections through the datastream root validator -/

theorem addDatastreamField_empty (g : GlobalAttributes) (h : g.datastream = "") :
    addDatastreamField g =
      { g with datastream :=
          (get_datastream g.location_id g.dataset_name g.qualifier g.temporal g.data_level) } := by
  simp [addDatastreamField, h]

theorem addDatastreamField_nonempty (g : GlobalAttributes) (h : ¬ g.datastream = "") :
    addDatastreamField g = g := by
  simp [addDatastreamField, h]

theorem addDatastreamField_history (g : GlobalAttributes) :
    (addDatastreamField g).history = g.history := by
  unfold addDatastreamField
  split <;> rfl

theorem addDatastreamField_code_version (g : GlobalAttributes) :
    (addDatastreamField g).code_version = g.code_version := by
  unfold addDatastreamField
  split <;> rfl

theorem addDatastreamField_extras (g : GlobalAttributes) :
    (addDatastreamField g).extras = g.extras := by
  unfold addDatastreamField
  split <;> rfl

/-! ### C2: the datastream attribute -/

/-- C2: when construction succeeds, a supplied non-empty `datastream` is
kept verbatim, and an absent or empty `datastream` is replaced by the
derived label built from `location_id`, `dataset_name`, the dash-prefixed
`qualifier` and `temporal` when present, and `data_level`. -/
theorem c2_datastream (envCodeVersion : Option String) (vcsVersion : String)
    (input : List (String × AttrValue)) (g : GlobalAttributes)
    (h : mkGlobalAttributes envCodeVersion vcsVersion input = .ok g) :
    (∀ s, lookupAttr input "datastream" = some (.str s) → ¬ s = "" → g.datastream = s) ∧
    ((lookupAttr input "datastream" = Option.none ∨
      lookupAttr input "datastream" = some (.str "")) →
      g.datastream =
        get_datastream g.location_id g.dataset_name g.qualifier g.temporal g.data_level) := by
  obtain ⟨g0, hp, ha, rfl⟩ := mkGlobalAttributes_ok_inv _ _ _ _ h
  have hspec := parseFields_ok_spec _ _ _ _ hp
  have hdstr : parseDatastream input = .ok g0.datastream := hspec.2.2.2.2.2.2.2.2.2.2.2.2.1
  constructor
  · intro s hl hs
    have hds : g0.datastream = s := parseDatastream_str_ok input s g0.datastream hl hdstr
    rw [addDatastreamField_nonempty g0 (by rw [hds]; exact hs), hds]
  · intro hl
    have hds : g0.datastream = "" := by
      rcases hl with hl | hl
      · simpa [parseDatastream, hl] using hdstr.symm
      · simpa [parseDatastream, hl, coerceStrictStr] using hdstr.symm
    rw [addDatastreamField_empty g0 hds]

/-- Witness for C2: the five required fields alone derive
`"WHOI.buoy.a1"`. -/
def validAttrInput : List (String × AttrValue) :=
  [("title", .str "Buoy Dataset"), ("description", .str "Example ingest"),
   ("location_id", .str "WHOI"), ("dataset_name", .str "buoy"), ("data_level", .str "a1")]

def validAttrExpected : GlobalAttributes :=
  ⟨"Buoy Dataset", "Example ingest", Option.none, Option.none, Option.none, Option.none,
   Option.none, "WHOI", "buoy", Option.none, Option.none, "a1", "WHOI.buoy.a1", "", "1.2.3", []⟩

theorem c2_datastream_witness :
    (lookupAttr validAttrInput "datastream" = Option.none ∧
     mkGlobalAttributes Option.none "1.2.3" validAttrInput = .ok validAttrExpected ∧
     get_datastream "WHOI" "buoy" Option.none Option.none "a1" = "WHOI.buoy.a1") ∧
    validAttrExpected.datastream =
      get_datastream validAttrExpected.location_id validAttrExpected.dataset_name
        validAttrExpected.qualifier validAttrExpected.temporal validAttrExpected.data_level :=
  ⟨⟨by rfl, by rfl, by rfl⟩,
   (c2_datastream Option.none "1.2.3" validAttrInput validAttrExpected (by rfl)).2
     (Or.inl (by rfl))⟩

/-! ### C3: error aggregation -/

/-- If any declared field fails, field validation raises the full list of
collected field errors. -/
theorem parseFields_error_of_errors (envCodeVersion : Option String) (vcsVersion : String)
    (input : List (String × AttrValue))
    (hne : fieldErrors envCodeVersion vcsVersion input ≠ []) :
    parseFields envCodeVersion vcsVersion input =
      .error (fieldErrors envCodeVersion vcsVersion input) := by
  unfold parseFields
  split
  · rename_i t de cu cv doi inst refs loc dn q tp dl dstr h cver
      h1 h2 h3 h4 h5 h6 h7 h8 h9 h10 h11 h12 h13 h14 h15
    exfalso
    exact hne (by
      simp [fieldErrors, errOf, h1, h2, h3, h4, h5, h6, h7, h8, h9, h10, h11, h12, h13, h14, h15])
  · rfl

/-- C3 (amended): whenever at least one declared-field constraint is
violated, construction fails with the single error value that enumerates
every violated field constraint (collected across all fields, not only the
first); non-ASCII violations, checked by a root validator that is skipped
as soon as any field error exists, are not part of that enumeration. -/
theorem c3_field_errors_enumerated (envCodeVersion : Option String) (vcsVersion : String)
    (input : List (String × AttrValue))
    (hne : fieldErrors envCodeVersion vcsVersion input ≠ []) :
    mkGlobalAttributes envCodeVersion vcsVersion input =
      .error (fieldErrors envCodeVersion vcsVersion input) := by
  simp [mkGlobalAttributes, parseFields_error_of_errors envCodeVersion vcsVersion input hne]

/-- Input with an empty title, a too-short dataset name, and every other
required field valid. -/
def twoViolationsInput : List (String × AttrValue) :=
  [("title", .str ""), ("description", .str "d"), ("location_id", .str "L"),
   ("dataset_name", .str "X"), ("data_level", .str "a1")]

/-- Witness for C3: both the title violation and the dataset-name
violation appear in the single reported error. -/
theorem c3_field_errors_enumerated_witness :
    fieldErrors Option.none "1.2.3" twoViolationsInput =
      ["title: at least 1 character required",
       "dataset_name: at least 2 characters required"] ∧
    mkGlobalAttributes Option.none "1.2.3" twoViolationsInput =
      .error (fieldErrors Option.none "1.2.3" twoViolationsInput) :=
  ⟨by rfl, c3_field_errors_enumerated Option.none "1.2.3" twoViolationsInput (by decide)⟩

/-- Input with a field violation (empty title) and, at the same time, a
non-ASCII extra key. -/
def fieldAndAsciiInput : List (String × AttrValue) :=
  [("title", .str ""), ("description", .str "d"), ("location_id", .str "L"),
   ("dataset_name", .str "buoy"), ("data_level", .str "a1"), ("naïve", .str "x")]

/-- C3 counterexample: with an empty `title` and a non-ASCII extra key, the
reported error enumerates only the title violation; the ASCII violation is
not reported, because the ASCII root validator is skipped whenever field
errors exist (`skip_on_failure`), so not every violated constraint is
enumerated. -/
theorem c3_counterexample :
    mkGlobalAttributes Option.none "1.2.3" fieldAndAsciiInput =
      .error ["title: at least 1 character required"] ∧
    ("naïve", AttrValue.str "x") ∈ fieldAndAsciiInput ∧
    strIsAscii "naïve" = false :=
  ⟨by rfl, by decide, by rfl⟩

/-- Valid input that also supplies a non-ASCII string for the
pipeline-owned `history` field. -/
def nonAsciiHistoryInput : List (String × AttrValue) :=
  validAttrInput ++ [("history", .str "híst")]

/-- C4 counterexample: a non-ASCII string value supplied for `history`
does NOT make construction fail — the pre-validator discards the value
before the ASCII root check runs — so construction succeeds although the
candidate mapping contains a non-ASCII string value. -/
theorem c4_counterexample :
    lookupAttr nonAsciiHistoryInput "history" = some (.str "híst") ∧
    strIsAscii "híst" = false ∧
    (mkGlobalAttributes Option.none "1.2.3" nonAsciiHistoryInput).toOption.isSome = true :=
  ⟨by rfl, by rfl, by rfl⟩

/-- Valid input extended with a non-ASCII extra key. -/
def nonAsciiKeyInput : List (String × AttrValue) :=
  validAttrInput ++ [("näme", .str "x")]

/-- Witness for C4 at a concrete non-ASCII extra key. -/
theorem c4_ascii_invariant_witness :
    (lookupAttr nonAsciiKeyInput "näme" = some (.str "x") ∧ strIsAscii "näme" = false) ∧
    (∃ es, mkGlobalAttributes Option.none "1.2.3" nonAsciiKeyInput = .error es) :=
  ⟨⟨by rfl, by rfl⟩,
   (c4_ascii_invariant Option.none "1.2.3" nonAsciiKeyInput).2 "näme" (.str "x")
     (by rfl) (by decide) (by decide) (Or.inl (by rfl))⟩

/-! ### C5 and C10: the pipeline-owned fields -/

/-- C5 (amended): supplying a truthy value for `history` or `code_version`
emits the warning for that field, and the constructed instance stores the
empty string for that field — never the user-supplied value, and for
`code_version` not the default-factory value either (the factory only runs
when the key is absent). -/
theorem c5_dynamic_fields_reset (envCodeVersion : Option String) (vcsVersion : String)
    (input : List (String × AttrValue)) (g : GlobalAttributes)
    (h : mkGlobalAttributes envCodeVersion vcsVersion input = .ok g) :
    (∀ v, lookupAttr input "history" = some v → attrTruthy v = true →
      historyWarnings input = [dynamicPropertyWarning "history" (attrValueText v)] ∧
      g.history = "") ∧
    (∀ v, lookupAttr input "code_version" = some v → attrTruthy v = true →
      codeVersionWarnings input = [dynamicPropertyWarning "code_version" (attrValueText v)] ∧
      g.code_version = "") := by
  obtain ⟨g0, hp, ha, rfl⟩ := mkGlobalAttributes_ok_inv _ _ _ _ h
  have hspec := parseFields_ok_spec _ _ _ _ hp
  have hh : parseHistory input = .ok g0.history := hspec.2.2.2.2.2.2.2.2.2.2.2.2.2.1
  have hcv : parseCodeVersion envCodeVersion vcsVersion input = .ok g0.code_version :=
    hspec.2.2.2.2.2.2.2.2.2.2.2.2.2.2.1
  constructor
  · intro v hl htr
    refine ⟨by simp [historyWarnings, hl, htr], ?_⟩
    rw [addDatastreamField_history]
    simpa [parseHistory, hl] using hh.symm
  · intro v hl htr
    refine ⟨by simp [codeVersionWarnings, hl, htr], ?_⟩
    rw [addDatastreamField_code_version]
    simpa [parseCodeVersion, hl] using hcv.symm

/-- Input supplying both pipeline-owned fields. -/
def dynamicFieldsInput : List (String × AttrValue) :=
  validAttrInput ++ [("history", .str "the past"), ("code_version", .str "v9")]

def dynamicFieldsExpected : GlobalAttributes :=
  ⟨"Buoy Dataset", "Example ingest", Option.none, Option.none, Option.none, Option.none,
   Option.none, "WHOI", "buoy", Option.none, Option.none, "a1", "WHOI.buoy.a1", "", "", []⟩

/-- C5 counterexample: with the `CODE_VERSION` environment variable set to
`7.7.7`, the default factory would produce `7.7.7`, but a construction
that was given `code_version="v9"` stores the empty string — not the
factory value claimed. -/
theorem c5_counterexample :
    get_code_version (some "7.7.7") "9.9.9" = "7.7.7" ∧
    mkGlobalAttributes (some "7.7.7") "9.9.9" dynamicFieldsInput = .ok dynamicFieldsExpected ∧
    dynamicFieldsExpected.code_version = "" ∧
    ¬ dynamicFieldsExpected.code_version = "7.7.7" :=
  ⟨by rfl, by rfl, by rfl, by decide⟩

/-- Witness for C5 (amended) at the concrete input above. -/
theorem c5_dynamic_fields_reset_witness :
    (lookupAttr dynamicFieldsInput "code_version" = some (.str "v9") ∧
     attrTruthy (.str "v9") = true) ∧
    (codeVersionWarnings dynamicFieldsInput =
      [dynamicPropertyWarning "code_version" (attrValueText (.str "v9"))] ∧
     dynamicFieldsExpected.code_version = "") :=
  ⟨⟨by rfl, by rfl⟩,
   (c5_dynamic_fields_reset (some "7.7.7") "9.9.9" dynamicFieldsInput dynamicFieldsExpected
     (by rfl)).2 (.str "v9") (by rfl) (by rfl)⟩

/-- C10: whenever the key `code_version` is present in the input (with any
value), the constructed instance stores the empty string — the default
factory runs only when the key is entirely absent — and the warning is
emitted exactly when the supplied value is truthy; when the key is absent,
the stored value is the factory result. -/
theorem c10_code_version_present_empty (envCodeVersion : Option String) (vcsVersion : String)
    (input : List (String × AttrValue)) (g : GlobalAttributes)
    (h : mkGlobalAttributes envCodeVersion vcsVersion input = .ok g) :
    (∀ v, lookupAttr input "code_version" = some v →
      g.code_version = "" ∧ (codeVersionWarnings input ≠ [] ↔ attrTruthy v = true)) ∧
    (lookupAttr input "code_version" = Option.none →
      g.code_version = get_code_version envCodeVersion vcsVersion) := by
  obtain ⟨g0, hp, ha, rfl⟩ := mkGlobalAttributes_ok_inv _ _ _ _ h
  have hspec := parseFields_ok_spec _ _ _ _ hp
  have hcv : parseCodeVersion envCodeVersion vcsVersion input = .ok g0.code_version :=
    hspec.2.2.2.2.2.2.2.2.2.2.2.2.2.2.1
  constructor
  · intro v hl
    refine ⟨?_, ?_⟩
    · rw [addDatastreamField_code_version]
      simpa [parseCodeVersion, hl] using hcv.symm
    · cases htr : attrTruthy v with
      | true => simp [codeVersionWarnings, hl, htr]
      | false => simp [codeVersionWarnings, hl, htr]
  · intro hl
    rw [addDatastreamField_code_version]
    simpa [parseCodeVersion, hl] using hcv.symm

/-- Input supplying an explicitly empty `code_version`. -/
def emptyCodeVersionInput : List (String × AttrValue) :=
  validAttrInput ++ [("code_version", .str "")]

def emptyCodeVersionExpected : GlobalAttributes :=
  ⟨"Buoy Dataset", "Example ingest", Option.none, Option.none, Option.none, Option.none,
   Option.none, "WHOI", "buoy", Option.none, Option.none, "a1", "WHOI.buoy.a1", "", "", []⟩

/-- Witness for C10: supplying `code_version=""` silently stores the empty
string (no warning, factory not consulted although the environment is
set). -/
theorem c10_code_version_present_empty_witness :
    (lookupAttr emptyCodeVersionInput "code_version" = some (.str "") ∧
     mkGlobalAttributes (some "7.7.7") "9.9.9" emptyCodeVersionInput =
       .ok emptyCodeVersionExpected ∧
     codeVersionWarnings emptyCodeVersionInput = []) ∧
    (emptyCodeVersionExpected.code_version = "" ∧
     (codeVersionWarnings emptyCodeVersionInput ≠ [] ↔ attrTruthy (.str "") = true)) :=
  ⟨⟨by rfl, by rfl, by rfl⟩,
   (c10_code_version_present_empty (some "7.7.7") "9.9.9" emptyCodeVersionInput
     emptyCodeVersionExpected (by rfl)).1 (.str "") (by rfl)⟩

/-! ### C6: unknown keys pass through -/

/-- C6: when every declared-field constraint and the ASCII rule hold, the
construction succeeds and the unknown keys of the candidate mapping are
carried into the instance untouched, in input order. -/
theorem c6_extras_passthrough (envCodeVersion : Option String) (vcsVersion : String)
    (input : List (String × AttrValue)) (g0 : GlobalAttributes)
    (hp : parseFields envCodeVersion vcsVersion input = .ok g0)
    (ha : validateAllAscii (orderedValues g0) = .ok ()) :
    ∃ g, mkGlobalAttributes envCodeVersion vcsVersion input = .ok g ∧
      g.extras = extrasOf input := by
  refine ⟨addDatastreamField g0, by simp [mkGlobalAttributes, hp, ha], ?_⟩
  rw [addDatastreamField_extras]
  exact (parseFields_ok_spec _ _ _ _ hp).2.2.2.2.2.2.2.2.2.2.2.2.2.2.2

/-- Valid input with an unknown extra key. -/
def extraKeyInput : List (String × AttrValue) :=
  validAttrInput ++ [("custom_attr", .str "hello"), ("sensor_count", .int 3)]

/-- Witness for C6: the two unknown attributes survive unmodified. -/
theorem c6_extras_passthrough_witness :
    extrasOf extraKeyInput = [("custom_attr", .str "hello"), ("sensor_count", .int 3)] ∧
    (∃ g, mkGlobalAttributes Option.none "1.2.3" extraKeyInput = .ok g ∧
      g.extras = extrasOf extraKeyInput) :=
  ⟨by rfl,
   c6_extras_passthrough Option.none "1.2.3" extraKeyInput
     ⟨"Buoy Dataset", "Example ingest", Option.none, Option.none, Option.none, Option.none,
      Option.none, "WHOI", "buoy", Option.none, Option.none, "a1", "", "", "1.2.3",
      [("custom_attr", .str "hello"), ("sensor_count", .int 3)]⟩
     (by rfl) (by rfl)⟩
